import Mathlib

/-!
Shallow embedding of the CreditNexus document-review workflow and FDC3
interop adapter, translated from the TypeScript source:

* `src/client/src/App.tsx` — document slot, extraction request, reject handler
* `src/client/src/components/ReviewInterface.tsx` — approve/reject gating and
  the wire-payload construction
* `src/unnamed/part_001` (the `useFDC3` hook) — capability probe, broadcast,
  mock mode

JavaScript conventions are made explicit: an optional field that may be
`undefined` becomes `Option`, and truthiness of a string (`!s` /
`s || default`) is the test `s = ""` on the carried string, with `none`
standing for `undefined`.
-/

namespace CreditNexus

/-- `commitment_amount: { amount: number; currency: string }` from the
`CreditAgreement` interface in `App.tsx` / `ReviewInterface.tsx`. -/
structure CommitmentAmount where
  amount : Int
  currency : String
deriving DecidableEq, Repr

/-- One element of `facilities` in the `CreditAgreement` interface. -/
structure Facility where
  facility_name : String
  commitment_amount : CommitmentAmount
  maturity_date : String
deriving DecidableEq, Repr

/-- One element of `parties` in the `CreditAgreement` interface. -/
structure Party where
  name : String
  role : String
deriving DecidableEq, Repr

/-- The `CreditAgreement` interface (`App.tsx` lines 7-17).
`extraction_status?: string` is optional, hence `Option String`;
`none` stands for the field being absent (`undefined`). -/
structure CreditAgreement where
  agreement_date : String
  parties : List Party
  facilities : List Facility
  governing_law : String
  extraction_status : Option String
deriving DecidableEq, Repr

/-- One element of `loan.facilities` in `CreditNexusLoanContext`
(`src/unnamed/part_001` lines 5-12). -/
structure WireFacility where
  name : String
  amount : Int
  currency : String
deriving DecidableEq, Repr

/-- The `loan` object of `CreditNexusLoanContext`. -/
structure WireLoan where
  agreementDate : String
  parties : List Party
  facilities : List WireFacility
deriving DecidableEq, Repr

/-- The `CreditNexusLoanContext` wire payload: a `type` discriminant string
and an optional `loan` object (`loan?:` in the interface, so inbound
contexts may lack it). -/
structure WireLoanContext where
  type : String
  loan : Option WireLoan
deriving DecidableEq, Repr

/-- JavaScript falsiness of an optional string: `!x` is true when the field
is `undefined` or the empty string. -/
def jsFalsyStr : Option String → Bool
  | none => true
  | some s => s = ""

/-- The facility rename performed inside `handleApprove`
(`ReviewInterface.tsx` lines 44-48): `facility_name -> name`,
`commitment_amount.amount -> amount`, `commitment_amount.currency -> currency`. -/
def mapFacility (f : Facility) : WireFacility :=
  { name := f.facility_name
    amount := f.commitment_amount.amount
    currency := f.commitment_amount.currency }

/-- The wire-payload construction inside `handleApprove`
(`ReviewInterface.tsx` lines 39-50): the broadcast argument built from the
extracted agreement. -/
def toWireContext (d : CreditAgreement) : WireLoanContext :=
  { type := "fdc3.creditnexus.loan"
    loan := some
      { agreementDate := d.agreement_date
        parties := d.parties
        facilities := d.facilities.map mapFacility } }

/-- `handleApprove` (`ReviewInterface.tsx` lines 36-53): if `extractedData`
is present, build the wire context and broadcast it (the returned value is
the payload handed to `broadcast`); otherwise nothing is published. -/
def handleApprove (extractedData : Option CreditAgreement) : Option WireLoanContext :=
  match extractedData with
  | some d => some (toWireContext d)
  | none => none

/-- `isSuccess` (`ReviewInterface.tsx` line 70):
`extractedData.extraction_status === 'success' || !extractedData.extraction_status`. -/
def isSuccess (d : CreditAgreement) : Bool :=
  d.extraction_status = some "success" || jsFalsyStr d.extraction_status

/-- The Approve button's enabled condition (`ReviewInterface.tsx` lines
199-205): `disabled={!extractedData || !isSuccess}`, negated. -/
def approveEnabled (extractedData : Option CreditAgreement) : Bool :=
  match extractedData with
  | none => false
  | some d => isSuccess d

/-- The approve action as reachable through the UI: `handleApprove` runs only
when the Approve button is enabled. -/
def approveClick (extractedData : Option CreditAgreement) : Option WireLoanContext :=
  if approveEnabled extractedData then handleApprove extractedData else none

/-- `handleReject` (`ReviewInterface.tsx` lines 55-57):
`onReject(rejectionReason || 'Rejected by analyst')`; on strings, JavaScript
`||` yields the default exactly when the left side is the empty string. -/
def handleReject (rejectionReason : String) : String :=
  if rejectionReason = "" then "Rejected by analyst" else rejectionReason

/-- The host environment as seen by `useFDC3` (`src/unnamed/part_001`):
whether `window` is defined and whether `window.fdc3` is truthy. -/
structure HostEnv where
  windowDefined : Bool
  fdc3Present : Bool
deriving DecidableEq, Repr

/-- The capability check in the `useFDC3` mount effect (line 20):
`typeof window !== 'undefined' && !!window.fdc3`. -/
def probeCapability (env : HostEnv) : Bool :=
  env.windowDefined && env.fdc3Present

/-- The state cached by the hook: the `isAvailable` React state set once in
the mount effect. -/
structure AdapterState where
  isAvailable : Bool
deriving DecidableEq, Repr

/-- Console events emitted by the hook and referenced by the claims. -/
inductive LogEvent where
  | mockModeActive
  | broadcastSuccess (p : WireLoanContext)
  | broadcastFailed (err : String)
  | mockWouldBroadcast (p : WireLoanContext)
deriving DecidableEq, Repr

/-- Result of the `useFDC3` mount effect (lines 18-44): the cached
`isAvailable` flag, whether a context listener was registered with the bus,
and the console log. -/
structure InitResult where
  state : AdapterState
  listenerRegistered : Bool
  logs : List LogEvent
deriving DecidableEq, Repr

/-- The `useFDC3` mount effect (`src/unnamed/part_001` lines 18-44): probe
once, cache the result in `isAvailable`; if available, register the context
listener with the bus; otherwise log that mock mode is active. -/
def initAdapter (env : HostEnv) : InitResult :=
  let available := probeCapability env
  { state := { isAvailable := available }
    listenerRegistered := available
    logs := if available then [] else [LogEvent.mockModeActive] }

/-- How the bus treats a broadcast when it is invoked: the promise either
resolves or rejects with an error. -/
inductive BusBehavior where
  | accepts
  | rejects (err : String)
deriving DecidableEq, Repr

/-- Everything observable about one `broadcast` call: whether the bus
transport (`window.fdc3.broadcast`) was invoked, what was logged, and the
error (if any) surfaced to the caller of `broadcast`. -/
structure BroadcastResult where
  transportInvoked : Bool
  logs : List LogEvent
  callerError : Option String
deriving DecidableEq, Repr

/-- `broadcast` (`src/unnamed/part_001` lines 46-59). The branch condition is
`isAvailable && window.fdc3`: the cached flag conjoined with a fresh read of
`window.fdc3` at call time. On the bus path, the promise's `.then` logs
success and `.catch` logs the failure; neither outcome reaches the caller
(`broadcast` returns `void`), so `callerError` is always `none`. In the mock
branch the would-be payload is logged and the transport is never touched. -/
def broadcast (s : AdapterState) (env : HostEnv) (bus : BusBehavior)
    (p : WireLoanContext) : BroadcastResult :=
  if s.isAvailable && env.fdc3Present then
    match bus with
    | BusBehavior.accepts =>
        { transportInvoked := true
          logs := [LogEvent.broadcastSuccess p]
          callerError := none }
    | BusBehavior.rejects err =>
        { transportInvoked := true
          logs := [LogEvent.broadcastFailed err]
          callerError := none }
  else
    { transportInvoked := false
      logs := [LogEvent.mockWouldBroadcast p]
      callerError := none }

/-- The mutable state of `App` (`App.tsx` lines 20-22): `documentText`,
`extractedData`, `isExtracting`. -/
structure AppState where
  documentText : String
  extractedData : Option CreditAgreement
  isExtracting : Bool
deriving DecidableEq, Repr

/-- `handleFileUpload` (`App.tsx` lines 24-31): with no file selected it
returns early; otherwise it stores the file text and clears any previously
extracted agreement (`setExtractedData(undefined)`). -/
def handleFileUpload (s : AppState) (file : Option String) : AppState :=
  match file with
  | none => s
  | some text => { s with documentText := text, extractedData := none }

/-- The ECMAScript whitespace characters removed by `String.prototype.trim`
(WhiteSpace and LineTerminator code points). -/
def jsWhitespaceChars : List Char :=
  [' ', '\t', '\n', '\r', '\x0b', '\x0c', ' ', ' ', ' ',
   ' ', ' ', ' ', ' ', ' ', ' ', ' ',
   ' ', ' ', ' ', ' ', ' ', ' ', ' ',
   '　', '﻿']

/-- Whether a character is ECMAScript whitespace. -/
def isJsWhitespace (c : Char) : Bool :=
  jsWhitespaceChars.contains c

/-- Falsiness of `documentText.trim()`: the trimmed string is empty exactly
when every character of the original is whitespace. -/
def jsTrimEmpty (s : String) : Bool :=
  s.toList.all isJsWhitespace

/-- The Extract button's enabled condition (`App.tsx` lines 120-126):
`disabled={!documentText.trim() || isExtracting}`, negated. -/
def extractEnabled (s : AppState) : Bool :=
  !jsTrimEmpty s.documentText && !s.isExtracting

/-- The outcome of the `/api/extract` call as seen by `handleExtract`: a
parsed agreement (2xx with a well-formed body, covering both the
`result.agreement` and the bare-fields shape), or a failure (non-2xx
response, network error, or malformed body — every path that lands in the
`catch`). -/
inductive ExtractOutcome where
  | success (agreement : CreditAgreement)
  | failure
deriving DecidableEq, Repr

/-- The hard-coded sample agreement in the `catch` block of `handleExtract`
(`App.tsx` lines 53-68). -/
def mockAgreement : CreditAgreement :=
  { agreement_date := "2023-10-15"
    parties :=
      [ { name := "ACME INDUSTRIES INC.", role := "Borrower" }
      , { name := "GLOBAL BANK CORP.", role := "Lender" } ]
    facilities :=
      [ { facility_name := "Term Loan Facility"
          commitment_amount := { amount := 500000000, currency := "USD" }
          maturity_date := "2028-10-15" } ]
    governing_law := "State of New York"
    extraction_status := some "success" }

/-- `handleExtract` (`App.tsx` lines 33-72). The guard
`if (!documentText.trim()) return;` skips the request entirely; otherwise the
endpoint is invoked (second component `true`) and on success the parsed
agreement is stored, while every failure path stores `mockAgreement`
("For demo: use mock data"). The `finally` clears `isExtracting`. -/
def handleExtract (s : AppState) (resp : ExtractOutcome) : AppState × Bool :=
  if jsTrimEmpty s.documentText then (s, false)
  else
    match resp with
    | ExtractOutcome.success ag =>
        ({ s with extractedData := some ag, isExtracting := false }, true)
    | ExtractOutcome.failure =>
        ({ s with extractedData := some mockAgreement, isExtracting := false }, true)

/-- Claim C4: mapping an extracted agreement to the wire context preserves the
agreement date, every party name/role pair, and every facility
name/amount/currency triple (a straight rename of `facility_name`,
`commitment_amount.amount` and `commitment_amount.currency`), keeping the
parties and facilities arrays in their original order with no entries
dropped. -/
theorem toWireContext_preserves_fields (d : CreditAgreement) :
    (toWireContext d).loan = some
      { agreementDate := d.agreement_date
        parties := d.parties
        facilities := d.facilities.map mapFacility }
    ∧ (∀ f : Facility, mapFacility f =
        { name := f.facility_name
          amount := f.commitment_amount.amount
          currency := f.commitment_amount.currency })
    ∧ (d.facilities.map mapFacility).length = d.facilities.length
    ∧ ∀ i : Nat, (d.facilities.map mapFacility)[i]? = (d.facilities[i]?).map mapFacility := by
  refine ⟨rfl, fun f => rfl, List.length_map _ _, fun i => ?_⟩
  simp

/-- Claim C2 (amended): every published payload has the exact shape
`{type, loan: {agreementDate, parties, facilities[{name, amount, currency}]}}`,
with the fixed discriminant `"fdc3.creditnexus.loan"`. -/
theorem published_payload_shape (d : CreditAgreement) :
    handleApprove (some d) = some
      { type := "fdc3.creditnexus.loan"
        loan := some
          { agreementDate := d.agreement_date
            parties := d.parties
            facilities := d.facilities.map mapFacility } } := rfl

/-- Claim C2 counterexample: the discriminant of a published payload is
`"fdc3.creditnexus.loan"`, not `"interop.loan"` as the claim states. -/
theorem published_type_not_interop_loan :
    (approveClick (some mockAgreement)).map WireLoanContext.type
      = some "fdc3.creditnexus.loan"
    ∧ (approveClick (some mockAgreement)).map WireLoanContext.type
      ≠ some "interop.loan" := by
  constructor
  · rfl
  · decide

/-- Claim C7: loading a document clears the previously stored extracted
agreement, so immediately after the load the approve action has nothing to
publish. -/
theorem load_discards_prior_agreement (s : AppState) (text : String) :
    (handleFileUpload s (some text)).extractedData = none
    ∧ approveClick (handleFileUpload s (some text)).extractedData = none :=
  ⟨rfl, rfl⟩

/-- Claim C10: rejecting with an empty reason records the fixed default
`"Rejected by analyst"`; a non-empty reason is recorded unchanged. -/
theorem reject_reason_defaulted :
    handleReject "" = "Rejected by analyst"
    ∧ ∀ r : String, r ≠ "" → handleReject r = r := by
  refine ⟨by decide, fun r hr => ?_⟩
  simp [handleReject, hr]

/-- Claim C10 witness: the default at the empty reason and pass-through at a
concrete non-empty reason. -/
theorem reject_reason_defaulted_witness :
    handleReject "" = "Rejected by analyst"
    ∧ ("too risky" ≠ "" ∧ handleReject "too risky" = "too risky") :=
  ⟨reject_reason_defaulted.1, by decide,
    reject_reason_defaulted.2 "too risky" (by decide)⟩

/-- An agreement whose `extraction_status` field is absent (`undefined`). -/
def unsetStatusAgreement : CreditAgreement :=
  { agreement_date := "2024-01-02"
    parties := [ { name := "BORROWER LLC", role := "Borrower" } ]
    facilities := []
    governing_law := "Delaware"
    extraction_status := none }

/-- Claim C1 counterexample: with an unset (absent) `extraction_status` the
Approve button is enabled and clicking it publishes, contradicting the claim
that an unset status is a precondition violation that must not publish. -/
theorem approve_accepts_unset_status :
    unsetStatusAgreement.extraction_status = none
    ∧ approveEnabled (some unsetStatusAgreement) = true
    ∧ approveClick (some unsetStatusAgreement)
        = some (toWireContext unsetStatusAgreement) := by
  refine ⟨rfl, by decide, ?_⟩
  decide

/-- Claim C1 (amended): the approve action maps and publishes exactly when an
extracted agreement is stored and its `extraction_status` is `"success"`,
absent, or the empty string (the code treats any falsy status as success);
for every other stored status the button is disabled and nothing is
published. -/
theorem approve_accepted_iff (od : Option CreditAgreement) :
    (approveClick od).isSome = true ↔
      ∃ d, od = some d ∧
        (d.extraction_status = some "success" ∨ d.extraction_status = none
          ∨ d.extraction_status = some "") := by
  cases od with
  | none => simp [approveClick, approveEnabled]
  | some d =>
    obtain ⟨ad, ps, fs, gl, st⟩ := d
    rcases st with _ | s
    · simp [approveClick, approveEnabled, isSuccess, jsFalsyStr, handleApprove]
    · by_cases h1 : s = "success"
      · subst h1
        simp [approveClick, approveEnabled, isSuccess, jsFalsyStr, handleApprove]
      · by_cases h2 : s = ""
        · subst h2
          simp [approveClick, approveEnabled, isSuccess, jsFalsyStr, handleApprove]
        · simp [approveClick, approveEnabled, isSuccess, jsFalsyStr, handleApprove,
            h1, h2]

/-- Document text used as the concrete failing input for the extraction
path. -/
def failingDocText : String := "CREDIT AGREEMENT dated October 15, 2023"

/-- Claim C3: when the extraction call fails on a loaded document, the code
stores the hard-coded sample agreement marked `"success"` instead of moving
to a Failed state carrying the error; the failure is masked and the
substituted data passes the approve gate. -/
theorem extract_failure_substitutes_mock :
    handleExtract
        { documentText := failingDocText, extractedData := none, isExtracting := false }
        ExtractOutcome.failure
      = ({ documentText := failingDocText
           extractedData := some mockAgreement
           isExtracting := false }, true)
    ∧ mockAgreement.extraction_status = some "success"
    ∧ isSuccess mockAgreement = true := by
  refine ⟨?_, rfl, by decide⟩
  decide

/-- Claim C5 counterexample: with the bus present and the broadcast rejected,
the transport is invoked, the failure is only logged to the console, and no
error reaches the caller of `broadcast` — the rejection is swallowed inside
the adapter, contradicting the claim that it propagates. -/
theorem broadcast_rejection_not_propagated :
    broadcast { isAvailable := true } { windowDefined := true, fdc3Present := true }
        (BusBehavior.rejects "channel closed") (toWireContext mockAgreement)
      = { transportInvoked := true
          logs := [LogEvent.broadcastFailed "channel closed"]
          callerError := none } := by
  decide

/-- Claim C5 (amended): when the bus is present and rejects a broadcast, the
adapter logs the failure and swallows it; `broadcast` surfaces no error to
its caller on any path, so the workflow cannot distinguish a rejected
broadcast from a successful one. -/
theorem broadcast_swallows_rejection (err : String) (p : WireLoanContext) :
    broadcast { isAvailable := true } { windowDefined := true, fdc3Present := true }
        (BusBehavior.rejects err) p
      = { transportInvoked := true
          logs := [LogEvent.broadcastFailed err]
          callerError := none }
    ∧ ∀ (s : AdapterState) (env : HostEnv) (bus : BusBehavior),
        (broadcast s env bus p).callerError = none := by
  refine ⟨rfl, fun s env bus => ?_⟩
  unfold broadcast
  split
  · cases bus <;> rfl
  · rfl

/-- Claim C6: when the capability probe failed at initialization, every
`broadcast` call logs the would-be payload, reports no error to the caller,
and never invokes the bus transport, whatever the environment looks like at
call time. -/
theorem mock_publish_succeeds (env callEnv : HostEnv) (bus : BusBehavior)
    (p : WireLoanContext) (h : probeCapability env = false) :
    broadcast (initAdapter env).state callEnv bus p
      = { transportInvoked := false
          logs := [LogEvent.mockWouldBroadcast p]
          callerError := none } := by
  have hs : (initAdapter env).state.isAvailable = false := by
    simp [initAdapter, h]
  unfold broadcast
  rw [hs]
  rfl

/-- Claim C6 witness: a concrete environment without a bus, where a later
`broadcast` degrades to a logged no-op even though `fdc3` appears at call
time. -/
theorem mock_publish_succeeds_witness :
    probeCapability { windowDefined := true, fdc3Present := false } = false
    ∧ broadcast (initAdapter { windowDefined := true, fdc3Present := false }).state
        { windowDefined := true, fdc3Present := true } BusBehavior.accepts
        (toWireContext mockAgreement)
      = { transportInvoked := false
          logs := [LogEvent.mockWouldBroadcast (toWireContext mockAgreement)]
          callerError := none } :=
  ⟨by decide, mock_publish_succeeds _ _ _ _ (by decide)⟩

/-- Claim C8 counterexample: initialization against an environment with a bus
caches `isAvailable = true`, yet a publish call made while `window.fdc3` is
gone takes the mock branch — the call consulted the live environment, not
only the cached value, contradicting "branches on the cached value rather
than re-probing the host environment". -/
theorem publish_reprobes_environment :
    (initAdapter { windowDefined := true, fdc3Present := true }).state
      = { isAvailable := true }
    ∧ (broadcast { isAvailable := true } { windowDefined := true, fdc3Present := false }
        BusBehavior.accepts (toWireContext mockAgreement))
      = { transportInvoked := false
          logs := [LogEvent.mockWouldBroadcast (toWireContext mockAgreement)]
          callerError := none } := by
  constructor
  · rfl
  · decide

/-- Claim C8 (amended): the capability is probed once at initialization and
cached in `isAvailable`, the listener is registered exactly when the probe
succeeded (mock mode being logged otherwise); a publish with a false cached
flag is a logged no-op whatever the current environment; and each publish
invokes the transport exactly when the cached flag holds together with a
fresh `window.fdc3` check. -/
theorem capability_cached_and_rechecked :
    (∀ env : HostEnv,
        (initAdapter env).state.isAvailable = probeCapability env
        ∧ (initAdapter env).listenerRegistered = probeCapability env
        ∧ (initAdapter env).logs
            = (if probeCapability env then [] else [LogEvent.mockModeActive]))
    ∧ (∀ (env : HostEnv) (bus : BusBehavior) (p : WireLoanContext),
        broadcast { isAvailable := false } env bus p
          = { transportInvoked := false
              logs := [LogEvent.mockWouldBroadcast p]
              callerError := none })
    ∧ (∀ (s : AdapterState) (env : HostEnv) (bus : BusBehavior) (p : WireLoanContext),
        (broadcast s env bus p).transportInvoked
          = (s.isAvailable && env.fdc3Present)) := by
  refine ⟨fun env => ⟨rfl, rfl, rfl⟩, fun env bus p => rfl, fun s env bus p => ?_⟩
  unfold broadcast
  rcases s with ⟨a⟩
  cases a <;> cases hf : env.fdc3Present <;> cases bus <;> simp [hf]

/-- Claim C9: with document text that is empty or all whitespace, the extract
handler returns without invoking the extraction endpoint and leaves the
state unchanged, and the Extract button is disabled. -/
theorem blank_text_skips_extraction (s : AppState) (resp : ExtractOutcome)
    (h : s.documentText.toList.all isJsWhitespace = true) :
    handleExtract s resp = (s, false) ∧ extractEnabled s = false := by
  have ht : jsTrimEmpty s.documentText = true := h
  constructor
  · simp [handleExtract, ht]
  · simp [extractEnabled, ht]

/-- Claim C9 witness: a concrete whitespace-only document text on which the
extract handler is a no-op and the button is disabled. -/
theorem blank_text_skips_extraction_witness :
    (" \t\n".toList.all isJsWhitespace = true)
    ∧ handleExtract
        { documentText := " \t\n", extractedData := none, isExtracting := false }
        ExtractOutcome.failure
      = ({ documentText := " \t\n", extractedData := none, isExtracting := false }, false)
    ∧ extractEnabled
        { documentText := " \t\n", extractedData := none, isExtracting := false }
      = false := by
  refine ⟨by decide, ?_, ?_⟩
  · exact (blank_text_skips_extraction _ ExtractOutcome.failure (by decide)).1
  · exact (blank_text_skips_extraction
      { documentText := " \t\n", extractedData := none, isExtracting := false }
      ExtractOutcome.failure (by decide)).2

end CreditNexus
